import Mathlib

/-!
Shallow embedding of the serial-over-TCP bridge of nanovisFlux
(src/demo/TcpSerialServerPort.py and src/demo/TcpSerialServer.py).

Python byte strings are modeled as `List Nat` of byte values; Python text
strings at the server layer are modeled as Lean `String` (the protocol tokens
are ASCII, where Python `str.upper` and Lean `String.toUpper` agree).
Timeout values (Python floats, in seconds) are modeled as `Option ℚ`
(`none` = Python `None`).  Blocking waits are modeled by explicit oracles:
an arrivals list for condition-variable waits, a socket-event list for sends,
and a flag-sample function for polling loops.
-/

namespace NanovisFlux

/-! Byte-level helpers (semantics of the Python `bytes` methods used). -/

/-- ASCII uppercasing of one byte value, as done by Python `bytes.upper`. -/
def byteUpper (b : Nat) : Nat := if 97 ≤ b ∧ b ≤ 122 then b - 32 else b

/-- Python `bytes.upper`. -/
def bytesUpper (bs : List Nat) : List Nat := bs.map byteUpper

/-- ASCII whitespace, as recognized by Python `strip` / `int`. -/
def isAsciiSpace (b : Nat) : Bool :=
  b == 32 || b == 9 || b == 10 || b == 13 || b == 11 || b == 12

/-- Drop leading ASCII whitespace bytes. -/
def dropSpaceL : List Nat → List Nat
  | [] => []
  | b :: rest => if isAsciiSpace b then dropSpaceL rest else b :: rest

/-- Python `bytes.strip` (and `str.strip` on ASCII text): remove leading and
trailing ASCII whitespace. -/
def stripBytes (bs : List Nat) : List Nat :=
  ((dropSpaceL ((dropSpaceL bs).reverse)).reverse)

/-- Python `s.startswith(p)`: arguments are `(p, s)`. -/
def isStartOf : List Nat → List Nat → Bool
  | [], _ => true
  | _ :: _, [] => false
  | p :: ps, c :: cs => p == c && isStartOf ps cs

/-- Python `bytearray.find(term)`: index of the first occurrence of `term`
as a contiguous subsequence (`none` for Python -1; the empty pattern is
found at index 0). -/
def findSub (term : List Nat) : List Nat → Option Nat
  | [] => if isStartOf term [] then some 0 else none
  | b :: rest =>
    if isStartOf term (b :: rest) then some 0
    else (findSub term rest).map (· + 1)

/-- Digit accumulation for `pyIntBytes`; fails on any non-digit byte. -/
def digitsValGo : List Nat → Nat → Option Nat
  | [], acc => some acc
  | d :: rest, acc =>
    if 48 ≤ d ∧ d ≤ 57 then digitsValGo rest (acc * 10 + (d - 48)) else none

/-- Value of a nonempty all-digit byte string. -/
def digitsVal : List Nat → Option Nat
  | [] => none
  | ds => digitsValGo ds 0

/-- Python `int(bytes)`: optional surrounding ASCII whitespace, optional sign,
then decimal digits; `none` models `ValueError`.  (Underscore digit grouping
is not modeled; no call site in this repository relies on it.) -/
def pyIntBytes (bs : List Nat) : Option Int :=
  match stripBytes bs with
  | 43 :: rest => (digitsVal rest).map Int.ofNat
  | 45 :: rest => (digitsVal rest).map (fun n => -(n : Int))
  | s => (digitsVal s).map Int.ofNat

/-! Protocol tokens (TcpSerialServerPort.py lines 15-18).  `ACKb` is b"ACK",
`HEARTBEATb` is b"BA-BUM", `WHOAMI_REPLYb` is b"CLIENT #". -/

def ACKb : List Nat := [65, 67, 75]

def HEARTBEATb : List Nat := [66, 65, 45, 66, 85, 77]

def WHOAMI_REPLYb : List Nat := [67, 76, 73, 69, 78, 84, 32, 35]

/-- The byte string b"ACK\n" compared against incoming chunks. -/
def ackLineB : List Nat := ACKb ++ [10]

/-- The byte string b"BA-BUM\n" transmitted by the heartbeat loop. -/
def heartbeatLineB : List Nat := HEARTBEATb ++ [10]

/-! RX loop (TcpSerialServerPort._rx_loop, lines 325-371). -/

/-- Mutable per-connection state touched by one RX-loop iteration. -/
structure RxState where
  rxBuffer : List Nat
  writeAck : Bool
  clientId : Int
deriving Repr, DecidableEq

/-- Result of one RX-loop iteration: the new state, and whether an ACK reply
was sent back on the socket. -/
structure RxStepOut where
  state : RxState
  sentAck : Bool
deriving Repr, DecidableEq

/-- One iteration of `TcpSerialServerPort._rx_loop` on a received chunk
(lines 326-357).  An empty recv result is skipped (`continue`).  Otherwise:
an ACK reply is sent for every chunk whose uppercase is not b"ACK\n"; a chunk
whose uppercase is b"ACK\n" sets the write-ack flag; a chunk whose uppercase
starts with b"CLIENT #" updates the client id (parsed from the raw bytes
after the prefix token, -1 on parse failure); finally the chunk is appended
to the receive buffer unconditionally. -/
def rxLoopStep (st : RxState) (data : List Nat) : RxStepOut :=
  if data = [] then ⟨st, false⟩
  else
    let up := bytesUpper data
    let sentAck := if up = ackLineB then false else true
    let writeAck := if up = ackLineB then true else st.writeAck
    let clientId :=
      if isStartOf WHOAMI_REPLYb up then
        match pyIntBytes (data.drop WHOAMI_REPLYb.length) with
        | some n => n
        | none => -1
      else st.clientId
    ⟨⟨st.rxBuffer ++ data, writeAck, clientId⟩, sentAck⟩

/-- Classification step of `TcpSerialServerPort._rx_print_lines` on one
drained line (lines 404-414): the decoded text is stripped; an empty line
breaks the loop (modeled as `none`); a line whose stripped uppercase equals
"ACK", "BA-BUM" or "CLIENT #", or starts with "CLIENT #", is suppressed;
any other line is emitted as a line-received event (`some` text).  Decoding
with errors="replace" is the identity on the byte values as modeled here. -/
def rxPrintClassify (line : List Nat) : Option (List Nat) :=
  let text := stripBytes line
  if line = [] then none
  else
    let up := bytesUpper text
    if up = ACKb ∨ up = HEARTBEATb ∨ up = WHOAMI_REPLYb ∨ isStartOf WHOAMI_REPLYb up
    then none
    else some text

/-! Errors (from serial.serialutil; SerialTimeoutException is the distinct
write-timeout error, a different type from SerialException). -/

inductive SerialError where
  | serialException (msg : String)
  | serialTimeoutException (msg : String)
deriving Repr, DecidableEq

/-- Result of a read call: drained data plus the buffer left behind, an
exception, or blocking forever (timeout None and no data ever arriving). -/
inductive ReadOutcome where
  | ok (data rest : List Nat)
  | err (e : SerialError)
  | blocked
deriving Repr, DecidableEq

/-! Read path (TcpSerialServerPort.read, lines 233-260). -/

/-- Size normalization and clamping of `read` (lines 234-235 and 257):
`size=None` or a negative size means unbounded, then `n = min(size, len)`. -/
def readCount (size : Option Int) (bufLen : Nat) : Nat :=
  match size with
  | none => bufLen
  | some s => if s < 0 then bufLen else min s.toNat bufLen

/-- Drain of a nonempty buffer by `read` (lines 257-260). -/
def readTake (size : Option Int) (buf : List Nat) : ReadOutcome :=
  .ok (buf.take (readCount size buf.length)) (buf.drop (readCount size buf.length))

/-- The wait/drain loop of `TcpSerialServerPort.read` (lines 244-260), with
condition-variable waits modeled by an arrivals oracle: each wait appends the
next chunk (data the RX loop delivered during the wait).  An exhausted oracle
models a wait returning with no new data: with a finite nonzero timeout the
deadline then elapses and b"" is returned; with timeout None the call blocks
forever.  With timeout 0 the loop returns before ever waiting. -/
def readLoop (timeout : Option ℚ) (size : Option Int) :
    List (List Nat) → List Nat → ReadOutcome
  | [], buf =>
    if buf = [] then
      if timeout = some 0 then .ok [] buf
      else if timeout = none then .blocked
      else .ok [] buf
    else readTake size buf
  | a :: rest, buf =>
    if buf = [] then
      if timeout = some 0 then .ok [] buf
      else readLoop timeout size rest (buf ++ a)
    else readTake size buf

/-- `TcpSerialServerPort.read` (lines 233-260): raises
SerialException("Attempt to read from closed port") when the port is closed,
otherwise runs the wait/drain loop. -/
def read (isOpen : Bool) (timeout : Option ℚ) (size : Option Int)
    (buf : List Nat) (arrivals : List (List Nat)) : ReadOutcome :=
  if isOpen then readLoop timeout size arrivals buf
  else .err (.serialException "Attempt to read from closed port")

/-! Read-until path (TcpSerialServerPort.read_until, lines 278-309). -/

/-- The immediate (no-wait) drain check of one `read_until` loop iteration
(lines 288-298): first look for the terminator and drain up to and including
its first occurrence; otherwise, when a size cap is given and the buffer has
reached it, drain exactly the cap. `none` means neither exit applies yet. -/
def readUntilStepR (term : List Nat) (size : Option Nat) (buf : List Nat) :
    Option (List Nat × List Nat) :=
  match findSub term buf with
  | some i => some (buf.take (i + term.length), buf.drop (i + term.length))
  | none =>
    match size with
    | some s => if s ≤ buf.length then some (buf.take s, buf.drop s) else none
    | none => none

/-- The wait/drain loop of `TcpSerialServerPort.read_until` (lines 286-309),
with waits modeled by the same arrivals oracle as `readLoop`. -/
def readUntilLoop (timeout : Option ℚ) (term : List Nat) (size : Option Nat) :
    List (List Nat) → List Nat → ReadOutcome
  | [], buf =>
    match readUntilStepR term size buf with
    | some (d, r) => .ok d r
    | none =>
      if timeout = some 0 then .ok [] buf
      else if timeout = none then .blocked
      else .ok [] buf
  | a :: rest, buf =>
    match readUntilStepR term size buf with
    | some (d, r) => .ok d r
    | none =>
      if timeout = some 0 then .ok [] buf
      else readUntilLoop timeout term size rest (buf ++ a)

/-- `TcpSerialServerPort.read_until` (lines 278-309): raises
SerialException("Attempt to read from closed port") when the port is closed,
otherwise runs the wait/drain loop. -/
def read_until (isOpen : Bool) (timeout : Option ℚ) (term : List Nat)
    (size : Option Nat) (buf : List Nat) (arrivals : List (List Nat)) : ReadOutcome :=
  if isOpen then readUntilLoop timeout term size arrivals buf
  else .err (.serialException "Attempt to read from closed port")

/-- `TcpSerialServerPort.flush` (lines 101-112): raises
SerialException("Attempt to flush closed port") on a closed port; otherwise a
zero-byte send whose OSError (if any, modeled by `sendErr`) is re-raised as a
SerialException. -/
def flush (isOpen : Bool) (sendErr : Option String) : Except SerialError Unit :=
  if isOpen then
    match sendErr with
    | some m => .error (.serialException m)
    | none => .ok ()
  else .error (.serialException "Attempt to flush closed port")

/-! Write path (TcpSerialServerPort.write, lines 200-231). -/

/-- Behavior of one socket send call inside `write`: `sent k τ` means the call
returned having accepted `k` bytes, with `τ` seconds elapsed since the start
of `write` when it returned; `sockTimeout` means it raised socket.timeout
(the per-call timeout set from write_timeout); `osError m` means it raised
some other OSError with message `m`. -/
inductive SendEvent where
  | sent (k : Nat) (elapsed : ℚ)
  | sockTimeout
  | osError (msg : String)
deriving Repr, DecidableEq

/-- Result of a `write` call. -/
inductive WriteOutcome where
  | ok (n : Nat)
  | err (e : SerialError)
  | blocked
deriving Repr, DecidableEq

/-- The send loop of `TcpSerialServerPort.write` (lines 212-231): while bytes
remain, call send on the remaining view; a zero-byte send raises
SerialException("Socket connection broken"); after each completed send the
accepted bytes are added and the deadline is checked — elapsed strictly above
write_timeout raises SerialTimeoutException("Write timeout") even when that
send completed the payload, because the check precedes the loop-condition
re-test; socket.timeout also maps to SerialTimeoutException and OSError to
SerialException.  An exhausted event list with bytes remaining models a send
that never returns. -/
def writeLoop (len : Nat) (wt : Option ℚ) : List SendEvent → Nat → WriteOutcome
  | [], total => if total < len then .blocked else .ok total
  | e :: rest, total =>
    if total < len then
      match e with
      | .sockTimeout => .err (.serialTimeoutException "Write timeout")
      | .osError m => .err (.serialException m)
      | .sent k t =>
        if k = 0 then .err (.serialException "Socket connection broken")
        else
          match wt with
          | some w =>
            if w < t then .err (.serialTimeoutException "Write timeout")
            else writeLoop len wt rest (total + k)
          | none => writeLoop len wt rest (total + k)
    else .ok total

/-- `TcpSerialServerPort.write` (lines 200-231): raises on a closed port,
otherwise runs the send loop over the payload. -/
def write (isOpen : Bool) (b : List Nat) (wt : Option ℚ)
    (events : List SendEvent) : WriteOutcome :=
  if isOpen then writeLoop b.length wt events 0
  else .err (.serialException "Attempt to write to closed port")

/-- Well-formedness of a send-event trace for a payload of `len` bytes
starting from `total` already sent: a real socket send never reports more
bytes than the view it was handed (`len - total`). -/
def eventsBounded (len : Nat) : List SendEvent → Nat → Bool
  | [], _ => true
  | .sent k _ :: rest, total =>
    decide (k ≤ len - total) && eventsBounded len rest (total + k)
  | .sockTimeout :: _, _ => true
  | .osError _ :: _, _ => true

/-! Heartbeat loop (TcpSerialServerPort._tx_heartbeat, lines 377-398). -/

/-- Python truthiness of the heartbeat interval in the outer while condition
`self._running and self.heartbeat_interval`: None and 0 are falsy, every
other value (negative included) is truthy. -/
def intervalTruthy : Option ℚ → Bool
  | none => false
  | some i => decide (i ≠ 0)

/-- Number of 0.1 s sleeps after which the elapsed wait reaches the interval
(the time bound of the inner wait loop); nonpositive intervals give 0. -/
def intervalTicks : Option ℚ → Nat
  | none => 0
  | some i => (⌈10 * i⌉).toNat

/-- The inner wait loop of `_tx_heartbeat` (lines 381-384): keep sleeping
while the running flag reads true and the elapsed time is below the interval.
`running t` is the value the t-th condition check reads from the flag;
`remaining` counts the sleeps left until the time bound.  Returns the number
of sleeps performed. -/
def hbWaitGo (running : Nat → Bool) (done : Nat) : Nat → Nat
  | 0 => done
  | remaining + 1 => if running done then hbWaitGo running (done + 1) remaining else done

/-- Observable result of one outer `_tx_heartbeat` iteration. -/
structure HbIterOut where
  ticks : Nat
  sent : Bool
deriving Repr, DecidableEq

/-- One outer iteration of `TcpSerialServerPort._tx_heartbeat` (lines
378-392).  The outer while condition samples the running flag
(`runningOuter`) and requires the interval truthy.  The inner wait loop then
polls the running flag until it reads false or the elapsed sleeps reach the
interval.  The heartbeat is then written with no further check of the running
flag; the write raises, and the loop breaks without sending, exactly when the
port is no longer open (`portOpen` models the write succeeding). -/
def txHeartbeatIter (runningOuter portOpen : Bool) (interval : Option ℚ)
    (runningWait : Nat → Bool) : HbIterOut :=
  if runningOuter && intervalTruthy interval then
    { ticks := hbWaitGo runningWait 0 (intervalTicks interval), sent := portOpen }
  else { ticks := 0, sent := false }

/-! Outbound line dispatch (TcpSerialServerPort.run, lines 486-500). -/

/-- Behavior of one send attempt of the dispatch block: `ok a` means the
write returned and the write-ack flag read `a` at the check after the 0.5 s
sleep; `raised` means the write raised (socket failure), which propagates out
of the dispatch block. -/
inductive AttemptResult where
  | ok (ackAfter : Bool)
  | raised
deriving Repr, DecidableEq

/-- Observable result of one pending-line dispatch. -/
structure DispatchOut where
  sends : List String
  nak : Option String
  pendingCleared : Bool
  raised : Bool
deriving Repr, DecidableEq

/-- The retry loop `for _ in range(3)` of the dispatch block (lines 489-494):
attempt `k` writes line+"\n", sleeps, and breaks when the write-ack flag
reads true.  Returns the payloads handed to write, the flag value last
observed, and whether a write raised. -/
def dispatchGo (line : String) (att : Nat → AttemptResult) :
    Nat → Nat → List String × Bool × Bool
  | _, 0 => ([], false, false)
  | k, n + 1 =>
    match att k with
    | .raised => ([line ++ "\n"], false, true)
    | .ok ackAfter =>
      if ackAfter then ([line ++ "\n"], true, false)
      else
        let res := dispatchGo line att (k + 1) n
        ((line ++ "\n") :: res.1, res.2.1, res.2.2)

/-- The pending-line dispatch block of `TcpSerialServerPort.run` (lines
486-500): after the retry loop, when the write-ack flag is still false the
local line-received event "NAK: "+line is emitted (via rx_line.emit, never
written to the socket), and the pending line is cleared in either case.  A
raising write aborts the block: no NAK is emitted and the pending line is not
cleared (the surrounding loop handles the exception). -/
def dispatchPending (line : String) (att : Nat → AttemptResult) : DispatchOut :=
  let r := dispatchGo line att 0 3
  if r.2.2 then { sends := r.1, nak := none, pendingCleared := false, raised := true }
  else
    { sends := r.1
      nak := if r.2.1 then none else some ("NAK: " ++ line)
      pendingCleared := true
      raised := false }

/-! Server-side registry and dispatch (TcpSerialServer.py). -/

/-- Registry view of one accepted connection: only its closed flag matters to
the dispatch paths modeled here. -/
structure SrvClient where
  closed : Bool
deriving Repr, DecidableEq

/-- Python list indexing `l[i]`: nonnegative indices from the front,
negative indices from the end, IndexError (modeled by `.error`) when out of
range. -/
def pyIndex {α : Type} (l : List α) (i : Int) : Except Unit α :=
  if 0 ≤ i then
    if h : i.toNat < l.length then .ok (l.get ⟨i.toNat, h⟩) else .error ()
  else
    let j := (l.length : Int) + i
    if 0 ≤ j then
      if h : j.toNat < l.length then .ok (l.get ⟨j.toNat, h⟩) else .error ()
    else .error ()

/-- `TcpSerialServer._on_tx_event` (lines 134-141): look up
clients[client_id - 1]; when the slot holds a non-closed client, emit the
line on its tx signal (one delivery, returned as a (slot, line) pair); when
the slot is None (tombstoned) or the client is closed, do nothing; an
out-of-range index raises IndexError. -/
def onTxEvent (clients : List (Option SrvClient)) (cid : Int) (line : String) :
    Except Unit (List (Int × String)) :=
  match pyIndex clients (cid - 1) with
  | .error () => .error ()
  | .ok none => .ok []
  | .ok (some c) => if c.closed then .ok [] else .ok [(cid, line)]

/-- ASCII uppercasing of a text line, modeling Python `str.upper` (the two
agree on the ASCII token vocabulary compared against). -/
def strUpper (s : String) : String := ⟨s.data.map Char.toUpper⟩

/-- `TcpSerialServer._on_client_rx_event` (lines 143-151): a received line
whose uppercase equals "WHOAMI" triggers a tx event to the same client id
carrying "CLIENT #<id>"; any other line triggers nothing. -/
def onClientRxEvent (clients : List (Option SrvClient)) (cid : Int) (line : String) :
    Except Unit (List (Int × String)) :=
  if strUpper line = "WHOAMI" then onTxEvent clients cid ("CLIENT #" ++ toString cid)
  else .ok []

/-- Observable result of the accept path of `TcpSerialServer.run`. -/
structure AcceptOut where
  clients : List (Option SrvClient)
  forwardId : Nat
  welcome : Except Unit (List (Int × String))
deriving Repr

/-- The accept path of `TcpSerialServer.run` (lines 196-212): the rx
forwarder lambda captures id = len(self.clients)+1 before the append, the
accepted connection is appended to the registry (so its 1-based slot is the
new length), and the welcome tx event (len, "CLIENT #<len>") is emitted
through `_on_tx_event`. -/
def acceptStep (cs : List (Option SrvClient)) : AcceptOut :=
  let fid := cs.length + 1
  let cs' := cs ++ [some { closed := false }]
  { clients := cs'
    forwardId := fid
    welcome := onTxEvent cs' (cs'.length : Int)
      ("CLIENT #" ++ toString ((cs'.length : Int))) }

/-! Theorems. -/

/-- Any successful immediate drain of `read_until` splits the buffer. -/
theorem readUntilStepR_append (term : List Nat) (size : Option Nat) (buf d r : List Nat)
    (h : readUntilStepR term size buf = some (d, r)) : d ++ r = buf := by
  unfold readUntilStepR at h
  split at h
  · injection h with h'
    cases h'
    exact List.take_append_drop ..
  · split at h
    · split at h
      · injection h with h'
        cases h'
        exact List.take_append_drop ..
      · cases h
    · cases h

/-- A `read_until` wait/drain loop that finds no immediate exit and returns
data drains a split of the buffer (no arrival consumed). -/
theorem readUntilLoop_nil_ok (timeout : Option ℚ) (term : List Nat) (size : Option Nat)
    (b d r : List Nat) (h : readUntilLoop timeout term size [] b = .ok d r) :
    d ++ r = b := by
  unfold readUntilLoop at h
  split at h
  · rename_i d₀ r₀ hs
    injection h with hd hr
    rw [← hd, ← hr]
    exact readUntilStepR_append term size b d₀ r₀ hs
  · split at h
    · injection h with hd hr
      rw [← hd, ← hr]; rfl
    · split at h
      · cases h
      · injection h with hd hr
        rw [← hd, ← hr]; rfl

/-- A `read_until` wait/drain loop that returns data drains a split of the
buffer as extended by the arrival chunks consumed while waiting. -/
theorem readUntilLoop_ok_split (timeout : Option ℚ) (term : List Nat) (size : Option Nat) :
    ∀ (arrivals : List (List Nat)) (b d r : List Nat),
      readUntilLoop timeout term size arrivals b = .ok d r →
      ∃ k, d ++ r = b ++ (List.take k arrivals).flatten := by
  intro arrivals
  induction arrivals with
  | nil =>
    intro b d r h
    refine ⟨0, ?_⟩
    simpa using readUntilLoop_nil_ok timeout term size b d r h
  | cons a rest ih =>
    intro b d r h
    unfold readUntilLoop at h
    split at h
    · rename_i d₀ r₀ hs
      injection h with hd hr
      refine ⟨0, ?_⟩
      rw [← hd, ← hr]
      simpa using readUntilStepR_append term size b d₀ r₀ hs
    · split at h
      · injection h with hd hr
        refine ⟨0, ?_⟩
        rw [← hd, ← hr]
        simp
      · obtain ⟨k, hk⟩ := ih (b ++ a) d r h
        refine ⟨k + 1, ?_⟩
        rw [hk]
        simp

/-- C3: a `read_until(terminator, sizeCap)` call never returns data past the
first occurrence of the terminator; when the terminator is present in the
buffer it drains exactly up to and including that first occurrence; when it
returns by the size cap it drains exactly the cap; each call splits the
buffer (drained prefix, remainder), so repeated calls drain in FIFO order;
and a call that waited first splits the buffer as extended by the chunks
the RX loop delivered during the waits, preserving arrival order. -/
theorem readUntil_drain_exact (buf term : List Nat) (size : Option Nat) (timeout : Option ℚ) :
    (∀ d r, read_until true timeout term size buf [] = .ok d r → d ++ r = buf) ∧
    (∀ i, findSub term buf = some i →
      read_until true timeout term size buf [] =
        .ok (buf.take (i + term.length)) (buf.drop (i + term.length))) ∧
    (∀ s, findSub term buf = none → size = some s → s ≤ buf.length →
      read_until true timeout term size buf [] = .ok (buf.take s) (buf.drop s)) ∧
    (∀ d₁ r₁ d₂ r₂, read_until true timeout term size buf [] = .ok d₁ r₁ →
      read_until true timeout term size r₁ [] = .ok d₂ r₂ →
      d₁ ++ (d₂ ++ r₂) = buf) ∧
    (∀ arrivals d r, read_until true timeout term size buf arrivals = .ok d r →
      ∃ k, d ++ r = buf ++ (List.take k arrivals).flatten) := by
  have key : ∀ (b d r : List Nat), read_until true timeout term size b [] = .ok d r →
      d ++ r = b := by
    intro b d r h
    unfold read_until at h
    simp only [if_true] at h
    exact readUntilLoop_nil_ok timeout term size b d r h
  refine ⟨fun d r => key buf d r, ?_, ?_, ?_, ?_⟩
  · intro i hi
    unfold read_until readUntilLoop
    simp only [if_true]
    unfold readUntilStepR
    rw [hi]
  · intro s hf hsz hle
    unfold read_until readUntilLoop
    simp only [if_true]
    unfold readUntilStepR
    rw [hf, hsz]
    simp [hle]
  · intro d₁ r₁ d₂ r₂ h1 h2
    rw [key r₁ d₂ r₂ h2, key buf d₁ r₁ h1]
  · intro arrivals d r h
    unfold read_until at h
    simp only [if_true] at h
    exact readUntilLoop_ok_split timeout term size arrivals buf d r h

/-- Witness for C3: on buffer b"HI\nJ" with terminator b"\n" (first occurrence
at index 2), the call drains exactly b"HI\n" and leaves b"J". -/
theorem readUntil_drain_exact_witness :
    read_until true (some 0) [10] none [72, 73, 10, 74] [] = .ok [72, 73, 10] [74] := by
  have h := (readUntil_drain_exact [72, 73, 10, 74] [10] none (some 0)).2.1 2 (by decide)
  exact h.trans (by decide)

/-- C5: with read timeout 0, `read(maxBytes)` returns at once with the first
min(maxBytes, buffered) bytes of the receive buffer — the empty byte string
when the buffer is empty — and never consults the wait oracle (it does not
block on the condition variable). -/
theorem read_timeout_zero (size : Option Int) (buf : List Nat) (arrivals : List (List Nat)) :
    read true (some 0) size buf arrivals =
      .ok (buf.take (readCount size buf.length)) (buf.drop (readCount size buf.length)) ∧
    read true (some 0) size buf arrivals = read true (some 0) size buf [] ∧
    (buf = [] → read true (some 0) size buf arrivals = .ok [] []) ∧
    (∀ m : Nat, readCount (some (m : Int)) buf.length = min m buf.length) := by
  have main : read true (some 0) size buf arrivals =
      .ok (buf.take (readCount size buf.length)) (buf.drop (readCount size buf.length)) := by
    unfold read
    simp only [if_true]
    rcases arrivals with _ | ⟨a, rest⟩ <;>
      · unfold readLoop
        by_cases hb : buf = []
        · subst hb; simp [readTake]
        · rw [if_neg hb]; rfl
  have empt : buf = [] → read true (some 0) size buf arrivals = .ok [] [] := by
    intro hb; subst hb; simpa using main
  refine ⟨main, ?_, empt, ?_⟩
  · rw [main]
    unfold read
    simp only [if_true]
    unfold readLoop
    by_cases hb : buf = []
    · subst hb; simp [readCount]
    · rw [if_neg hb]; rfl
  · intro m
    unfold readCount
    simp [Int.toNat_natCast]

/-- Witness for C5: with timeout 0 and an empty buffer, `read` returns the
empty byte string even though data would arrive during a wait. -/
theorem read_timeout_zero_witness :
    read true (some 0) (some 3) [] [[1, 2]] = .ok [] [] :=
  (read_timeout_zero (some 3) [] [[1, 2]]).2.2.1 rfl

/-- C10: on a session that is not open, `read` and `read_until` raise
SerialException("Attempt to read from closed port") immediately instead of
returning an empty byte string, and `flush` raises
SerialException("Attempt to flush closed port"). -/
theorem closedPort_raises (timeout : Option ℚ) (size : Option Int) (term : List Nat)
    (usize : Option Nat) (buf : List Nat) (arrivals : List (List Nat))
    (sendErr : Option String) :
    read false timeout size buf arrivals =
      .err (.serialException "Attempt to read from closed port") ∧
    read_until false timeout term usize buf arrivals =
      .err (.serialException "Attempt to read from closed port") ∧
    flush false sendErr = .error (.serialException "Attempt to flush closed port") :=
  ⟨rfl, rfl, rfl⟩

/-- The send loop exits successfully only with the whole payload sent, for
any trace whose sends never exceed the remaining view. -/
theorem writeLoop_ok_eq_len (len : Nat) (wt : Option ℚ) :
    ∀ (events : List SendEvent) (total n : Nat), total ≤ len →
      eventsBounded len events total = true →
      writeLoop len wt events total = .ok n → n = len := by
  intro events
  induction events with
  | nil =>
    intro total n h1 h2 h3
    unfold writeLoop at h3
    split at h3
    · cases h3
    · injection h3 with h'
      omega
  | cons e rest ih =>
    intro total n h1 h2 h3
    unfold writeLoop at h3
    split at h3
    · rename_i hlt
      match e with
      | .sockTimeout => cases h3
      | .osError m => cases h3
      | .sent k t =>
        simp only at h3
        split at h3
        · cases h3
        · unfold eventsBounded at h2
          simp only [Bool.and_eq_true, decide_eq_true_eq] at h2
          obtain ⟨hk, hrest⟩ := h2
          have hle : total + k ≤ len := by omega
          match wt with
          | some w =>
            simp only at h3
            split at h3
            · cases h3
            · exact ih (total + k) n hle hrest h3
          | none => exact ih (total + k) n hle hrest h3
    · injection h3 with h'
      omega

/-- A generic SerialException out of the send loop only arises from a
zero-byte send or from an OSError event — never from the deadline check or a
socket timeout, which produce SerialTimeoutException instead. -/
theorem writeLoop_serialErr_source (len : Nat) (wt : Option ℚ) :
    ∀ (events : List SendEvent) (total : Nat) (m : String),
      writeLoop len wt events total = .err (.serialException m) →
      m = "Socket connection broken" ∨ SendEvent.osError m ∈ events := by
  intro events
  induction events with
  | nil =>
    intro total m h
    unfold writeLoop at h
    split at h
    · cases h
    · cases h
  | cons e rest ih =>
    intro total m h
    unfold writeLoop at h
    split at h
    · match e with
      | .sockTimeout => cases h
      | .osError m' =>
        simp only at h
        injection h with h'
        injection h' with h''
        exact Or.inr (by rw [h'']; exact List.mem_cons_self ..)
      | .sent k t =>
        simp only at h
        split at h
        · injection h with h'
          injection h' with h''
          exact Or.inl h''.symm
        · match wt with
          | some w =>
            simp only at h
            split at h
            · cases h
            · rcases ih (total + k) m h with h1 | h1
              · exact Or.inl h1
              · exact Or.inr (List.mem_cons_of_mem _ h1)
          | none =>
            rcases ih (total + k) m h with h1 | h1
            · exact Or.inl h1
            · exact Or.inr (List.mem_cons_of_mem _ h1)
    · cases h

/-- Counterexample to C6 as stated: a single send that hands all five bytes
to the socket but returns with the elapsed time over the 1-second write
deadline.  Every byte has been handed to the socket, yet `write` does not
return the full count 5: the deadline check runs after each send — including
the final one — so it raises SerialTimeoutException instead of returning. -/
theorem write_timeout_after_full_send :
    write true [1, 2, 3, 4, 5] (some 1) [.sent 5 2]
        = .err (.serialTimeoutException "Write timeout") ∧
    eventsBounded 5 [.sent 5 2] 0 = true := by
  exact ⟨by decide, by decide⟩

/-- C6 (amended): `write` retries partial sends and, whenever it returns a
count, that count is the full payload length; a deadline or socket timeout is
always surfaced as the distinct SerialTimeoutException("Write timeout"),
never as the generic SerialException, which only arises from a zero-byte
send ("Socket connection broken") or an OSError of the socket.  However the
deadline check also runs after the send that completes the payload, so
exceeding the deadline there raises the timeout error even though every byte
was handed to the socket. -/
theorem write_full_count_or_timeout (b : List Nat) (wt : Option ℚ)
    (events : List SendEvent) :
    (∀ n, eventsBounded b.length events 0 = true →
      write true b wt events = .ok n → n = b.length) ∧
    (∀ m, write true b wt events = .err (.serialException m) →
      m = "Socket connection broken" ∨ SendEvent.osError m ∈ events) := by
  constructor
  · intro n hb h
    unfold write at h
    simp only [if_true] at h
    exact writeLoop_ok_eq_len b.length wt events 0 n (Nat.zero_le _) hb h
  · intro m h
    unfold write at h
    simp only [if_true] at h
    exact writeLoop_serialErr_source b.length wt events 0 m h

/-- Witness for C6: a payload of three bytes delivered in two partial sends
under no deadline returns the full count 3, and an OSError surfaces as the
generic SerialException. -/
theorem write_full_count_or_timeout_witness :
    write true [1, 2, 3] none [.sent 2 0, .sent 1 0] = .ok 3 ∧ (3 : Nat) = 3 := by
  have h := (write_full_count_or_timeout [1, 2, 3] none [.sent 2 0, .sent 1 0]).1 3
    (by decide) (by decide)
  exact ⟨by decide, by rw [h]⟩

/-- Counterexample to C7 as stated: an iteration whose outer check read the
running flag as true, after which the flag is false at every poll of the
inner wait loop (running became false); the wait loop exits at once and the
heartbeat is still written, because the send is not re-guarded by the flag. -/
theorem heartbeat_sent_after_stop :
    (txHeartbeatIter true true (some 5) (fun _ => false)).sent = true := rfl

/-- C7 (amended): the heartbeat loop starts an iteration only when the outer
check reads the running flag true and the configured interval is truthy
(set and nonzero); in particular no heartbeat is ever sent when the interval
is 0 or unset.  The send at the end of an iteration is not re-guarded by the
running flag, so one heartbeat can still go out after the flag turns false
mid-wait. -/
theorem heartbeat_guard (r p : Bool) (iv : Option ℚ) (rw : Nat → Bool) :
    ((txHeartbeatIter r p iv rw).sent = true → r = true ∧ intervalTruthy iv = true) ∧
    (iv = none ∨ iv = some 0 → (txHeartbeatIter r p iv rw).sent = false) := by
  constructor
  · intro h
    unfold txHeartbeatIter at h
    split at h
    · rename_i hc
      simp only [Bool.and_eq_true] at hc
      exact hc
    · cases h
  · intro hiv
    have hfalse : intervalTruthy iv = false := by
      rcases hiv with h | h <;> subst h <;> simp [intervalTruthy]
    unfold txHeartbeatIter
    rw [hfalse]
    simp

/-- Witness for C7: with the interval configured as 0 the iteration sends
nothing, even with the running flag true throughout and the port open. -/
theorem heartbeat_guard_witness :
    (txHeartbeatIter true true (some 0) (fun _ => true)).sent = false :=
  (heartbeat_guard true true (some 0) (fun _ => true)).2 (Or.inr rfl)

/-- Exhaustive case list for one dispatch attempt outcome. -/
theorem attemptResult_cases (x : AttemptResult) :
    x = .ok true ∨ x = .ok false ∨ x = .raised := by
  rcases x with b | _
  · cases b
    · exact Or.inr (Or.inl rfl)
    · exact Or.inl rfl
  · exact Or.inr (Or.inr rfl)

/-- C2: the dispatch loop writes a queued line at most 3 times, stopping
early as soon as the write-ack flag is observed true; everything handed to
the socket is the original line plus terminator (the NAK text is never
transmitted); when no ACK is observed on any of the 3 attempts, exactly 3
writes happen, the local NAK event carrying the original line is emitted,
and the pending line is cleared.  Attempts are conditioned on the write not
raising (a raising write aborts the dispatch block). -/
theorem dispatch_at_most_three (line : String) (att : Nat → AttemptResult) :
    (dispatchPending line att).sends.length ≤ 3 ∧
    (∀ s ∈ (dispatchPending line att).sends, s = line ++ "\n") ∧
    (att 0 = .ok true →
      (dispatchPending line att).sends.length = 1 ∧
      (dispatchPending line att).nak = none ∧
      (dispatchPending line att).pendingCleared = true) ∧
    (att 0 = .ok false → att 1 = .ok true →
      (dispatchPending line att).sends.length = 2 ∧
      (dispatchPending line att).nak = none ∧
      (dispatchPending line att).pendingCleared = true) ∧
    (att 0 = .ok false → att 1 = .ok false → att 2 = .ok true →
      (dispatchPending line att).sends.length = 3 ∧
      (dispatchPending line att).nak = none ∧
      (dispatchPending line att).pendingCleared = true) ∧
    (att 0 = .ok false → att 1 = .ok false → att 2 = .ok false →
      (dispatchPending line att).sends.length = 3 ∧
      (dispatchPending line att).nak = some ("NAK: " ++ line) ∧
      (dispatchPending line att).pendingCleared = true) := by
  rcases attemptResult_cases (att 0) with h0 | h0 | h0 <;>
    rcases attemptResult_cases (att 1) with h1 | h1 | h1 <;>
      rcases attemptResult_cases (att 2) with h2 | h2 | h2 <;>
        simp [dispatchPending, dispatchGo, h0, h1, h2]

/-- Witness for C2: with no ACK ever observed, the dispatch writes the line
exactly 3 times and raises the local NAK event with the original text. -/
theorem dispatch_at_most_three_witness :
    (dispatchPending "HELLO" (fun _ => .ok false)).sends.length = 3 ∧
    (dispatchPending "HELLO" (fun _ => .ok false)).nak = some ("NAK: " ++ "HELLO") ∧
    (dispatchPending "HELLO" (fun _ => .ok false)).pendingCleared = true :=
  (dispatch_at_most_three "HELLO" (fun _ => .ok false)).2.2.2.2.2 rfl rfl rfl

/-- Counterexample to C1 as stated: the RX loop appends the chunk b"ACK\n"
to the receive buffer like any other data (while consuming it only at the
flag level), so a subsequent `read` call returns the ACK bytes to its caller
as application data — the line is surfaced from the receive buffer. -/
theorem ack_returned_by_read :
    (rxLoopStep ⟨[], false, 0⟩ ackLineB).state.rxBuffer = ackLineB ∧
    read true (some 0) (some 100) (rxLoopStep ⟨[], false, 0⟩ ackLineB).state.rxBuffer []
        = .ok ackLineB [] ∧
    ackLineB ≠ [] := by
  exact ⟨by decide, by decide, by decide⟩

/-- C1 (amended): a received chunk case-insensitively equal to b"ACK\n" sets
the write-ack flag and is never emitted as a line-received event — the
classifier of the line-reader thread suppresses any line whose stripped
uppercase equals "ACK" — but the RX loop still appends every nonempty chunk,
ACK included, to the receive buffer, from which direct `read`/`read_until`
callers can obtain it; suppression happens only at the line-event layer. -/
theorem ack_never_line_event (st : RxState) (data line : List Nat) :
    (data ≠ [] → (rxLoopStep st data).state.rxBuffer = st.rxBuffer ++ data) ∧
    (bytesUpper (stripBytes line) = ACKb → rxPrintClassify line = none) ∧
    (bytesUpper data = ackLineB → (rxLoopStep st data).state.writeAck = true) := by
  refine ⟨?_, ?_, ?_⟩
  · intro hne
    unfold rxLoopStep
    rw [if_neg hne]
  · intro hup
    unfold rxPrintClassify
    by_cases hl : line = []
    · rw [if_pos hl]
    · rw [if_neg hl]
      simp [hup]
  · intro hack
    have hne : data ≠ [] := by
      intro he
      rw [he] at hack
      exact absurd hack (by decide)
    unfold rxLoopStep
    rw [if_neg hne]
    simp [hack]

/-- Witness for C1 (amended), at a lowercase ACK: the chunk b"ack\n" lands in
the receive buffer and sets the flag, and the line b"ack" is suppressed from
the line-received event. -/
theorem ack_never_line_event_witness :
    (rxLoopStep ⟨[], false, 0⟩ [97, 99, 107, 10]).state.rxBuffer = [97, 99, 107, 10] ∧
    rxPrintClassify [97, 99, 107] = none ∧
    (rxLoopStep ⟨[], false, 0⟩ [97, 99, 107, 10]).state.writeAck = true := by
  have h := ack_never_line_event ⟨[], false, 0⟩ [97, 99, 107, 10] [97, 99, 107]
  exact ⟨(h.1 (by decide)).trans (by decide), h.2.1 (by decide), h.2.2 (by decide)⟩

/-- Counterexample to C4 as stated: on receiving the heartbeat chunk
b"BA-BUM\n" the RX loop does send b"ACK\n" in reply, because it acknowledges
every nonempty chunk that is not itself an ACK line. -/
theorem heartbeat_is_acked :
    (rxLoopStep ⟨[], false, 0⟩ heartbeatLineB).sentAck = true := by decide

/-- C4 (amended): the RX loop replies with an ACK to every nonempty received
chunk whose uppercase is not b"ACK\n" — heartbeats included — so a heartbeat
line is ACKed; heartbeats are nevertheless suppressed from the application
view by the line-event classifier. -/
theorem rx_ack_reply_policy (st : RxState) (data line : List Nat) :
    (data ≠ [] →
      ((rxLoopStep st data).sentAck = true ↔ bytesUpper data ≠ ackLineB)) ∧
    (bytesUpper (stripBytes line) = HEARTBEATb → rxPrintClassify line = none) := by
  constructor
  · intro hne
    unfold rxLoopStep
    rw [if_neg hne]
    by_cases hup : bytesUpper data = ackLineB
    · simp [hup]
    · simp [hup]
  · intro hup
    unfold rxPrintClassify
    by_cases hl : line = []
    · rw [if_pos hl]
    · rw [if_neg hl]
      simp [hup]

/-- Witness for C4 (amended): the heartbeat chunk is ACKed and the heartbeat
line is suppressed from line-received events. -/
theorem rx_ack_reply_policy_witness :
    (rxLoopStep ⟨[], false, 0⟩ heartbeatLineB).sentAck = true ∧
    rxPrintClassify [98, 97, 45, 98, 117, 109] = none := by
  have h := rx_ack_reply_policy ⟨[], false, 0⟩ heartbeatLineB [98, 97, 45, 98, 117, 109]
  exact ⟨(h.1 (by decide)).mpr (by decide), h.2 (by decide)⟩

/-- Python indexing at a nonnegative in-range position returns the stored
element. -/
theorem pyIndex_get {α : Type} (l : List α) (k : Nat) (x : α)
    (h : l.get? k = some x) : pyIndex l (k : Int) = .ok x := by
  obtain ⟨hk, hg⟩ := List.get?_eq_some.mp h
  unfold pyIndex
  rw [if_pos (Int.natCast_nonneg k)]
  have ht : (k : Int).toNat = k := Int.toNat_natCast k
  simp only [ht]
  rw [dif_pos hk]
  exact congrArg Except.ok hg

/-- C9: when registry slot k has been tombstoned to empty (the handler set
clients[k-1] to None on close) — or still holds a client already marked
closed — a SendTo(k, line) through `_on_tx_event` delivers nothing to any
connection and raises no exception (the result is `.ok []`, not an error). -/
theorem sendto_closed_noop (clients : List (Option SrvClient)) (k : Nat)
    (line : String) (c : SrvClient) (hk : 1 ≤ k) :
    (clients.get? (k - 1) = some none → onTxEvent clients (k : Int) line = .ok []) ∧
    (clients.get? (k - 1) = some (some c) → c.closed = true →
      onTxEvent clients (k : Int) line = .ok []) := by
  have hcast : (k : Int) - 1 = ((k - 1 : Nat) : Int) := by omega
  constructor
  · intro h
    unfold onTxEvent
    rw [hcast, pyIndex_get clients (k - 1) none h]
  · intro h hc
    unfold onTxEvent
    rw [hcast, pyIndex_get clients (k - 1) (some c) h]
    simp [hc]

/-- Witness for C9: in a registry whose second slot is tombstoned and whose
first client is closed, both SendTo calls are no-ops. -/
theorem sendto_closed_noop_witness :
    onTxEvent [some ⟨true⟩, none] (2 : Int) "X" = .ok [] ∧
    onTxEvent [some ⟨true⟩, none] (1 : Int) "X" = .ok [] :=
  ⟨(sendto_closed_noop [some ⟨true⟩, none] 2 "X" ⟨true⟩ (by decide)).1 rfl,
   (sendto_closed_noop [some ⟨true⟩, none] 1 "X" ⟨true⟩ (by decide)).2 rfl rfl⟩

/-- C8: a line case-insensitively equal to "WHOAMI" received from the
connection in open registry slot n makes the server emit, to that same slot,
the line "CLIENT #n"; and the accept path sends the same "CLIENT #id" line
unsolicited as a welcome to the newly appended connection, whose rx
forwarder captured exactly that slot number. -/
theorem whoami_reply (clients : List (Option SrvClient)) (n : Nat) (c : SrvClient)
    (line : String) (hn : 1 ≤ n) (hslot : clients.get? (n - 1) = some (some c))
    (hopen : c.closed = false) (hline : strUpper line = "WHOAMI") :
    onClientRxEvent clients (n : Int) line
        = .ok [((n : Int), "CLIENT #" ++ toString (n : Int))] ∧
    (acceptStep clients).welcome
        = .ok [(((clients.length + 1 : Nat) : Int),
                "CLIENT #" ++ toString (((clients.length + 1 : Nat) : Int)))] ∧
    (acceptStep clients).forwardId = clients.length + 1 ∧
    (acceptStep clients).clients.get? ((acceptStep clients).forwardId - 1)
        = some (some { closed := false }) := by
  have hlen : (clients ++ [some (⟨false⟩ : SrvClient)]).length = clients.length + 1 := by
    simp
  refine ⟨?_, ?_, ?_, ?_⟩
  · unfold onClientRxEvent
    rw [if_pos hline]
    unfold onTxEvent
    have hcast : (n : Int) - 1 = ((n - 1 : Nat) : Int) := by omega
    rw [hcast, pyIndex_get clients (n - 1) (some c) hslot]
    simp [hopen]
  · unfold acceptStep onTxEvent
    simp only [hlen]
    have hcast : ((clients.length + 1 : Nat) : Int) - 1 = ((clients.length : Nat) : Int) := by
      omega
    rw [hcast]
    have hpy := pyIndex_get (clients ++ [some (⟨false⟩ : SrvClient)]) clients.length
      (some ⟨false⟩) (List.get?_concat_length clients (some ⟨false⟩))
    simp only [hpy]
    simp
  · unfold acceptStep
    simp
  · unfold acceptStep
    simp only [hlen, Nat.add_sub_cancel]
    exact List.get?_concat_length clients (some ⟨false⟩)

/-- Witness for C8: in a one-slot registry holding an open client, a
lowercase "whoami" is answered with "CLIENT #1" on slot 1, and the next
accept welcomes slot 2 with "CLIENT #2". -/
theorem whoami_reply_witness :
    onClientRxEvent [some ⟨false⟩] (1 : Int) "whoami" = .ok [(1, "CLIENT #1")] ∧
    (acceptStep [some ⟨false⟩]).welcome = .ok [(2, "CLIENT #2")] := by
  have h := whoami_reply [some ⟨false⟩] 1 ⟨false⟩ "whoami" (by decide) rfl rfl (by rfl)
  exact ⟨h.1.trans (by rfl), (h.2.1).trans (by rfl)⟩

end NanovisFlux
